import Mathlib

set_option maxRecDepth 100000

/-!
Shallow embedding of the Strategic Metrics Derivation Engine
(`computeGrowthMetrics` and its helpers in the backend `metrics` module,
record types from the backend `types` module), over exact rationals.

Modelling conventions:
* JS numbers are modelled by `ℚ` (the spec describes the fields as real
  numbers; IEEE-754 rounding, `NaN` and `Infinity` are outside the model).
* `Math.sqrt` has no rational counterpart, so the engine is parameterised
  by an arbitrary `sqrtFn : ℚ → ℚ` standing for it; no claim below depends
  on the value of a square root.
* A row (`Record<string, unknown>`) is an association list from column
  name to a `Scalar` cell value; a name absent from the list is JS
  `undefined`.
* JS objects used as string-keyed maps (`metrics_detail`, `trends`) are
  association lists built in insertion order; the engine inserts each
  column name at most once per distinct name, so `List.lookup` agrees
  with JS key access.
-/

namespace ATI

/-- A dynamic cell value as produced by the upstream CSV/XLSX parser and
JSON storage: a number, a string, a boolean, or JSON `null`.  A missing
key (JS `undefined`) is represented by `Option.none` at lookup sites. -/
inductive Scalar where
  | num (q : ℚ)
  | str (s : String)
  | boolean (b : Bool)
  | null
  deriving DecidableEq

/-- A parsed row: `Record<string, unknown>`. -/
abbrev Row := List (String × Scalar)

/-- Value of a run of decimal digit characters (no validity check). -/
def digitsVal (cs : List Char) : Nat :=
  cs.foldl (fun n c => 10 * n + (c.toNat - 48)) 0

/-- Unsigned decimal literal `digits`, `digits.digits`, `digits.` or
`.digits`, as accepted by JS `Number` on strings. -/
def parseUnsignedDec (cs : List Char) : Option ℚ :=
  match cs.splitOn '.' with
  | [ip] =>
      if ip ≠ [] ∧ ip.all Char.isDigit then some (digitsVal ip) else none
  | [ip, fp] =>
      if (ip ≠ [] ∨ fp ≠ []) ∧ ip.all Char.isDigit ∧ fp.all Char.isDigit then
        some ((digitsVal ip : ℚ) + (digitsVal fp : ℚ) / 10 ^ fp.length)
      else none
  | _ => none

/-- Signed integer literal (used for the exponent part). -/
def parseSignedInt (cs : List Char) : Option ℤ :=
  match cs with
  | '+' :: rest =>
      if rest ≠ [] ∧ rest.all Char.isDigit then some (digitsVal rest) else none
  | '-' :: rest =>
      if rest ≠ [] ∧ rest.all Char.isDigit then some (-(digitsVal rest : ℤ)) else none
  | _ =>
      if cs ≠ [] ∧ cs.all Char.isDigit then some (digitsVal cs) else none

/-- Decimal literal with optional exponent part (`1.5e-3`).  Hexadecimal,
octal, binary and `Infinity` forms of JS `Number` are outside the model
(none is exercised by the spec or the claims). -/
def parseDecLit (cs : List Char) : Option ℚ :=
  match (cs.map (fun c => if c == 'E' then 'e' else c)).splitOn 'e' with
  | [m] => parseUnsignedDec m
  | [m, e] => do
      let mv ← parseUnsignedDec m
      let ev ← parseSignedInt e
      some (mv * (10 : ℚ) ^ ev)
  | _ => none

/-- The whitespace characters JS `Number` strips from both ends of a
string (space, tab, line feed, carriage return, vertical tab, form
feed). -/
def isJsWhitespace (c : Char) : Bool :=
  c == ' ' || c == '\t' || c == '\n' || c == '\r' || c == '\x0b' || c == '\x0c'

/-- Strip leading and trailing JS whitespace from a character list. -/
def trimChars (cs : List Char) : List Char :=
  ((cs.dropWhile isJsWhitespace).reverse.dropWhile isJsWhitespace).reverse

/-- JS `Number(s)` for a string `s`: surrounding whitespace is ignored,
the empty (or all-whitespace) string coerces to `0`, otherwise a signed
decimal literal; `none` stands for `NaN`. -/
def jsStringToNumber (s : String) : Option ℚ :=
  match trimChars s.toList with
  | [] => some 0
  | '+' :: rest => parseDecLit rest
  | '-' :: rest => (parseDecLit rest).map (fun q => -q)
  | cs => parseDecLit cs

/-- `Number(v)` followed by the engine's `isNaN` filter
(`const v = Number(r[col]); return isNaN(v) ? null : v`):
`none` (a dropped value) corresponds to `NaN`.
Per ECMA-262, `Number(undefined) = NaN`, `Number(null) = 0`,
`Number(true) = 1`, `Number(false) = 0`. -/
def coerceNum : Option Scalar → Option ℚ
  | none => none
  | some (.num q) => some q
  | some (.str s) => jsStringToNumber s
  | some (.boolean b) => some (if b then 1 else 0)
  | some .null => some 0

/-- The surviving numeric values of one column, in row order:
`data.map((r) => ...).filter((v) => v !== null)`. -/
def colVals (data : List Row) (col : String) : List ℚ :=
  data.filterMap (fun r => coerceNum (r.lookup col))

/-- JS `String.prototype.includes`, on char lists: `needle` occurs as a
prefix of `hay`. -/
def leadMatch : List Char → List Char → Bool
  | [], _ => true
  | _ :: _, [] => false
  | a :: as, b :: bs => a == b && leadMatch as bs

/-- `needle` occurs as a contiguous sublist of `hay`. -/
def subMatch (needle : List Char) : List Char → Bool
  | [] => needle.isEmpty
  | c :: rest => leadMatch needle (c :: rest) || subMatch needle rest

/-- JS `c.includes(kw)`. -/
def jsIncludes (c kw : String) : Bool :=
  subMatch kw.toList c.toList

/-- `round2`: `Math.round(n * 100) / 100`.  JS `Math.round` rounds half
toward positive infinity, i.e. `⌊x + 1/2⌋`. -/
def round2 (n : ℚ) : ℚ :=
  ((⌊n * 100 + 1 / 2⌋ : ℤ) : ℚ) / 100

/-- `clamp(val, lo, hi) = Math.max(lo, Math.min(hi, val))`; every call in
the engine uses the default bounds `lo = 0`, `hi = 100`. -/
def clamp (val lo hi : ℚ) : ℚ :=
  max lo (min hi val)

/-- `mean`: sum divided by length, `0` on the empty list. -/
def mean (arr : List ℚ) : ℚ :=
  if arr.isEmpty then 0 else arr.sum / arr.length

/-- `std`: population standard deviation, `0` below two elements;
`sqrtFn` stands for `Math.sqrt`. -/
def std (sqrtFn : ℚ → ℚ) (arr : List ℚ) : ℚ :=
  if arr.length < 2 then 0
  else sqrtFn ((arr.map (fun v => (v - mean arr) ^ 2)).sum / arr.length)

/-- `Math.min(...l)` for the nonempty lists the engine applies it to
(`Math.min()` of no arguments is `Infinity`, outside the model). -/
def listMin : List ℚ → ℚ
  | [] => 0
  | x :: xs => xs.foldl min x

/-- `Math.max(...l)` for the nonempty lists the engine applies it to. -/
def listMax : List ℚ → ℚ
  | [] => 0
  | x :: xs => xs.foldl max x

/-- The four classification buckets returned by `classifyColumns`. -/
structure Buckets where
  revenue : List String
  cost : List String
  user : List String
  retention : List String
  deriving DecidableEq

def revenueKws : List String := ["revenue", "mrr", "arr", "income", "sales", "gmv"]

def costKws : List String := ["cost", "expense", "spend", "burn", "cac"]

def userKws : List String := ["user", "customer", "subscriber", "client", "account"]

def retentionKws : List String := ["retention", "churn", "nrr", "ndr"]

/-- `kws.some((kw) => c.includes(kw))`. -/
def matchesAny (kws : List String) (c : String) : Bool :=
  kws.any (fun kw => jsIncludes c kw)

/-- `classifyColumns`: keyword classification of the declared numeric
column names into four non-exclusive buckets. -/
def classifyColumns (numericCols : List String) : Buckets where
  revenue := numericCols.filter (matchesAny revenueKws)
  cost := numericCols.filter (matchesAny costKws)
  user := numericCols.filter (matchesAny userKws)
  retention := numericCols.filter (matchesAny retentionKws)

/-- The `ColumnMetrics` record of the backend `types` module; the two
optional TS fields are `Option`s (`none` = key absent). -/
structure ColumnMetrics where
  mean : ℚ
  latest : ℚ
  min : ℚ
  max : ℚ
  total : ℚ
  avg_growth_rate : Option ℚ
  growth_rates : Option (List ℚ)
  deriving DecidableEq

/-- The `MetricsResult` record of the backend `types` module. -/
structure MetricsResult where
  growth_score : ℚ
  efficiency_score : ℚ
  pmf_signal : ℚ
  scalability_index : ℚ
  capital_efficiency : ℚ
  metrics_detail : List (String × ColumnMetrics)
  trends : List (String × List ℚ)
  deriving DecidableEq

/-- The growth-rate series: one entry
`(vals[i] - vals[i-1]) / Math.abs(vals[i-1]) * 100` per adjacent pair
whose prior value is nonzero. -/
def pctChanges : List ℚ → List ℚ
  | a :: b :: rest =>
      (if a ≠ 0 then [(b - a) / |a| * 100] else []) ++ pctChanges (b :: rest)
  | _ => []

/-- The `ColumnMetrics` entry built for one column from its surviving
values (the engine only builds it when `vals` is nonempty); the growth
fields are set exactly when `vals.length > 1`. -/
def columnDetail (vals : List ℚ) : ColumnMetrics :=
  let base : ColumnMetrics :=
    { mean := round2 (mean vals)
      latest := round2 (vals.getLastD 0)
      min := round2 (listMin vals)
      max := round2 (listMax vals)
      total := round2 vals.sum
      avg_growth_rate := none
      growth_rates := none }
  if vals.length > 1 then
    let pcs := pctChanges vals
    { base with
      avg_growth_rate := some (if pcs.isEmpty then 0 else round2 (mean pcs))
      growth_rates := some (pcs.map round2) }
  else base

/-- The `metricsDetail` map: one entry per declared column with at least
one surviving value, in declaration order. -/
def metricsDetail (data : List Row) (numericCols : List String) :
    List (String × ColumnMetrics) :=
  numericCols.filterMap (fun col =>
    let vals := colVals data col
    if vals.isEmpty then none else some (col, columnDetail vals))

/-- The `trends` map: the rounded raw value series, only for columns with
at least two surviving values. -/
def trendsOf (data : List Row) (numericCols : List String) :
    List (String × List ℚ) :=
  numericCols.filterMap (fun col =>
    let vals := colVals data col
    if vals.length > 1 then some (col, vals.map round2) else none)

/-- `metricsDetail[c]` key access. -/
def mdLookup (md : List (String × ColumnMetrics)) (c : String) :
    Option ColumnMetrics :=
  md.lookup c

/-- The growth columns: revenue bucket if nonempty, else user bucket if
nonempty, else the first two declared numeric columns. -/
def growthColsOf (b : Buckets) (numericCols : List String) : List String :=
  if b.revenue ≠ [] then b.revenue
  else if b.user ≠ [] then b.user
  else numericCols.take 2

/-- The collected `avg_growth_rate`s of the growth columns
(`growthCols.filter((c) => metricsDetail[c]?.avg_growth_rate !== undefined)
.map((c) => metricsDetail[c].avg_growth_rate!)`). -/
def growthRatesOf (md : List (String × ColumnMetrics)) (gcols : List String) :
    List ℚ :=
  gcols.filterMap (fun c => (mdLookup md c).bind (fun d => d.avg_growth_rate))

/-- The (unrounded) Growth Score: `clamp(50 + avgGrowth * 2)`. -/
def growthScoreOf (md : List (String × ColumnMetrics)) (b : Buckets)
    (numericCols : List String) : ℚ :=
  let rates := growthRatesOf md (growthColsOf b numericCols)
  let avgGrowth := if rates.isEmpty then 0 else mean rates
  clamp (50 + avgGrowth * 2) 0 100

/-- `bucket.reduce((s, c) => s + (metricsDetail[c]?.total ?? 0), 0)`. -/
def bucketTotal (md : List (String × ColumnMetrics)) (bucket : List String) : ℚ :=
  (bucket.map (fun c => ((mdLookup md c).map (fun d => d.total)).getD 0)).sum

/-- `bucket.reduce((s, c) => s + (metricsDetail[c]?.latest ?? 0), 0)`. -/
def bucketLatest (md : List (String × ColumnMetrics)) (bucket : List String) : ℚ :=
  (bucket.map (fun c => ((mdLookup md c).map (fun d => d.latest)).getD 0)).sum

/-- `Math.max(...bucket.map((c) => metricsDetail[c]?.avg_growth_rate ?? 0))`. -/
def bucketGrowthMax (md : List (String × ColumnMetrics)) (bucket : List String) : ℚ :=
  listMax (bucket.map (fun c => ((mdLookup md c).bind (fun d => d.avg_growth_rate)).getD 0))

/-- `numericCols.filter((c) => c.includes("churn"))`. -/
def churnColsOf (numericCols : List String) : List String :=
  numericCols.filter (fun c => jsIncludes c "churn")

/-- `retention.filter((c) => !c.includes("churn"))`. -/
def pureRetentionOf (b : Buckets) : List String :=
  b.retention.filter (fun c => !jsIncludes c "churn")

/-- `colsL.filter((c) => metricsDetail[c]).map((c) => metricsDetail[c].latest)`. -/
def latestValsOf (md : List (String × ColumnMetrics)) (colsL : List String) : List ℚ :=
  colsL.filterMap (fun c => (mdLookup md c).map (fun d => d.latest))

/-- The (unrounded) Efficiency Score block. -/
def efficiencyScoreOf (md : List (String × ColumnMetrics)) (b : Buckets) : ℚ :=
  if b.revenue ≠ [] ∧ b.cost ≠ [] then
    if bucketTotal md b.cost > 0 then
      clamp (bucketTotal md b.revenue / bucketTotal md b.cost * 25) 0 100
    else 65
  else 65

/-- The (unrounded) PMF Signal block. -/
def pmfSignalOf (sqrtFn : ℚ → ℚ) (md : List (String × ColumnMetrics))
    (b : Buckets) (numericCols : List String) (growthRates : List ℚ)
    (growthScore : ℚ) : ℚ :=
  if pureRetentionOf b ≠ [] then
    if latestValsOf md (pureRetentionOf b) ≠ [] then
      clamp (mean (latestValsOf md (pureRetentionOf b))) 0 100
    else 55
  else if churnColsOf numericCols ≠ [] then
    if latestValsOf md (churnColsOf numericCols) ≠ [] then
      clamp (100 - mean (latestValsOf md (churnColsOf numericCols)) * 10) 0 100
    else 55
  else if growthRates ≠ [] then
    clamp (((if growthRates.length > 1 then 100 - min 100 (std sqrtFn growthRates * 2)
             else 60) + growthScore) / 2) 0 100
  else 55

/-- The (unrounded) Scalability Index block. -/
def scalabilityIndexOf (md : List (String × ColumnMetrics)) (b : Buckets) : ℚ :=
  if b.revenue ≠ [] ∧ b.cost ≠ [] then
    if bucketGrowthMax md b.cost ≠ 0 then
      clamp (50 + (bucketGrowthMax md b.revenue - bucketGrowthMax md b.cost)) 0 100
    else if bucketGrowthMax md b.revenue > 0 then
      clamp (50 + bucketGrowthMax md b.revenue) 0 100
    else 60
  else 60

/-- The (unrounded) Capital Efficiency block. -/
def capitalEfficiencyOf (md : List (String × ColumnMetrics)) (b : Buckets) : ℚ :=
  if b.revenue ≠ [] ∧ b.cost ≠ [] then
    if bucketLatest md b.cost > 0 then
      clamp (bucketLatest md b.revenue / bucketLatest md b.cost * 30) 0 100
    else 55
  else 55

/-- The all-zero result returned for degenerate input. -/
def zeroResult : MetricsResult :=
  { growth_score := 0
    efficiency_score := 0
    pmf_signal := 0
    scalability_index := 0
    capital_efficiency := 0
    metrics_detail := []
    trends := [] }

/-- `computeGrowthMetrics(data, numericCols)`; `sqrtFn` stands for
`Math.sqrt`. -/
def computeGrowthMetrics (sqrtFn : ℚ → ℚ) (data : List Row)
    (numericCols : List String) : MetricsResult :=
  if data = [] ∨ numericCols = [] then zeroResult
  else
    let md := metricsDetail data numericCols
    let b := classifyColumns numericCols
    let growthRates := growthRatesOf md (growthColsOf b numericCols)
    let growthScore := growthScoreOf md b numericCols
    { growth_score := round2 growthScore
      efficiency_score := round2 (efficiencyScoreOf md b)
      pmf_signal := round2 (pmfSignalOf sqrtFn md b numericCols growthRates growthScore)
      scalability_index := round2 (scalabilityIndexOf md b)
      capital_efficiency := round2 (capitalEfficiencyOf md b)
      metrics_detail := md
      trends := trendsOf data numericCols }

/-- A concrete stand-in for `Math.sqrt` used when instantiating theorems
whose statements do not depend on square roots. -/
def sqrt0 : ℚ → ℚ := fun _ => 0

/-! ### General lemmas about the numeric helpers -/

theorem round2_mono {x y : ℚ} (h : x ≤ y) : round2 x ≤ round2 y := by
  unfold round2
  have hf : (⌊x * 100 + 1 / 2⌋ : ℤ) ≤ ⌊y * 100 + 1 / 2⌋ :=
    Int.floor_mono (by linarith)
  have hq : ((⌊x * 100 + 1 / 2⌋ : ℤ) : ℚ) ≤ ((⌊y * 100 + 1 / 2⌋ : ℤ) : ℚ) := by
    exact_mod_cast hf
  linarith

theorem round2_zero : round2 0 = 0 := by norm_num [round2]

theorem round2_hundred : round2 100 = 100 := by norm_num [round2]

theorem round2_nonneg {x : ℚ} (h : 0 ≤ x) : 0 ≤ round2 x :=
  round2_zero ▸ round2_mono h

theorem round2_le_hundred {x : ℚ} (h : x ≤ 100) : round2 x ≤ 100 :=
  round2_hundred ▸ round2_mono h

theorem clamp_mem (x : ℚ) : 0 ≤ clamp x 0 100 ∧ clamp x 0 100 ≤ 100 :=
  ⟨le_max_left 0 _, max_le (by norm_num) (min_le_left 100 x)⟩

/-! ### Range of the five unrounded score blocks -/

theorem growthScoreOf_mem (md : List (String × ColumnMetrics)) (b : Buckets)
    (cols : List String) :
    0 ≤ growthScoreOf md b cols ∧ growthScoreOf md b cols ≤ 100 := by
  unfold growthScoreOf
  exact clamp_mem _

theorem efficiencyScoreOf_mem (md : List (String × ColumnMetrics)) (b : Buckets) :
    0 ≤ efficiencyScoreOf md b ∧ efficiencyScoreOf md b ≤ 100 := by
  unfold efficiencyScoreOf
  split
  · split
    · exact clamp_mem _
    · norm_num
  · norm_num

theorem pmfSignalOf_mem (sqrtFn : ℚ → ℚ) (md : List (String × ColumnMetrics))
    (b : Buckets) (cols : List String) (gr : List ℚ) (gs : ℚ) :
    0 ≤ pmfSignalOf sqrtFn md b cols gr gs ∧ pmfSignalOf sqrtFn md b cols gr gs ≤ 100 := by
  unfold pmfSignalOf
  split
  · split
    · exact clamp_mem _
    · norm_num
  · split
    · split
      · exact clamp_mem _
      · norm_num
    · split
      · exact clamp_mem _
      · norm_num

theorem scalabilityIndexOf_mem (md : List (String × ColumnMetrics)) (b : Buckets) :
    0 ≤ scalabilityIndexOf md b ∧ scalabilityIndexOf md b ≤ 100 := by
  unfold scalabilityIndexOf
  split
  · split
    · exact clamp_mem _
    · split
      · exact clamp_mem _
      · norm_num
  · norm_num

theorem capitalEfficiencyOf_mem (md : List (String × ColumnMetrics)) (b : Buckets) :
    0 ≤ capitalEfficiencyOf md b ∧ capitalEfficiencyOf md b ≤ 100 := by
  unfold capitalEfficiencyOf
  split
  · split
    · exact clamp_mem _
    · norm_num
  · norm_num

/-! ### Unfolding the engine on degenerate and regular input -/

theorem computeGrowthMetrics_degenerate (sqrtFn : ℚ → ℚ) (data : List Row)
    (cols : List String) (h : data = [] ∨ cols = []) :
    computeGrowthMetrics sqrtFn data cols = zeroResult := by
  unfold computeGrowthMetrics
  rw [if_pos h]

theorem computeGrowthMetrics_pos (sqrtFn : ℚ → ℚ) (data : List Row)
    (cols : List String) (hd : data ≠ []) (hc : cols ≠ []) :
    computeGrowthMetrics sqrtFn data cols =
      { growth_score := round2 (growthScoreOf (metricsDetail data cols) (classifyColumns cols) cols)
        efficiency_score := round2 (efficiencyScoreOf (metricsDetail data cols) (classifyColumns cols))
        pmf_signal := round2 (pmfSignalOf sqrtFn (metricsDetail data cols)
          (classifyColumns cols) cols
          (growthRatesOf (metricsDetail data cols) (growthColsOf (classifyColumns cols) cols))
          (growthScoreOf (metricsDetail data cols) (classifyColumns cols) cols))
        scalability_index := round2 (scalabilityIndexOf (metricsDetail data cols) (classifyColumns cols))
        capital_efficiency := round2 (capitalEfficiencyOf (metricsDetail data cols) (classifyColumns cols))
        metrics_detail := metricsDetail data cols
        trends := trendsOf data cols } := by
  unfold computeGrowthMetrics
  rw [if_neg (by simp [hd, hc])]

/-! ### Substring matching agrees with `List.IsInfix` -/

theorem leadMatch_iff (a : List Char) : ∀ b : List Char, leadMatch a b = true ↔ a <+: b := by
  induction a with
  | nil => intro b; simp [leadMatch]
  | cons x xs ih =>
      intro b
      cases b with
      | nil => simp [leadMatch]
      | cons y ys =>
          rw [leadMatch]
          simp [List.cons_prefix_cons, ih ys, Bool.and_eq_true, beq_iff_eq]

theorem subMatch_iff (n : List Char) : ∀ h : List Char, subMatch n h = true ↔ n <:+: h := by
  intro h
  induction h with
  | nil => simp [subMatch, List.isEmpty_iff]
  | cons c t ih =>
      rw [subMatch]
      simp [List.infix_cons_iff, leadMatch_iff, ih, Bool.or_eq_true]

theorem matchesAny_iff (kws : List String) (c : String) :
    matchesAny kws c = true ↔ ∃ kw ∈ kws, kw.toList <:+: c.toList := by
  simp [matchesAny, jsIncludes, List.any_eq_true, subMatch_iff]

/-! ### The growth-rate series as a filter over adjacent pairs -/

theorem pctChanges_eq (l : List ℚ) :
    pctChanges l = (l.zip l.tail).filterMap
      (fun p => if p.1 ≠ 0 then some ((p.2 - p.1) / |p.1| * 100) else none) := by
  induction l with
  | nil => rfl
  | cons a t ih =>
      cases t with
      | nil => rfl
      | cons b r =>
          rw [pctChanges, ih]
          simp only [List.tail_cons, List.zip_cons_cons, List.filterMap_cons]
          by_cases ha : a ≠ 0
          · rw [if_pos ha, if_pos ha]
            simp
          · rw [if_neg ha, if_neg ha]
            simp

/-! ### Claim theorems -/

/-- Input rows of the C1 example: one declared numeric column `m` whose
cells down the rows are the string `12`, the string `abc`, JSON `null`
and the string `15`. -/
def c1Rows : List Row :=
  [[("m", .str "12")], [("m", .str "abc")], [("m", .null)], [("m", .str "15")]]

/-- C1 counterexample: on the claimed example column `["12", "abc", null, "15"]`
the surviving coerced values are `[12, 0, 15]`, not `[12, 15]` — the JS
coercion `Number(null)` is `0`, not `NaN`, so the `null` cell is kept as
`0` rather than dropped. -/
theorem c1_counterexample :
    colVals c1Rows "m" = [12, 0, 15] ∧ colVals c1Rows "m" ≠ [12, 15] := by
  constructor
  · with_unfolding_all decide
  · with_unfolding_all decide

/-- C1 (amended): per-column statistics are computed only over the values
that coerce to a number under JS `Number`; non-coercible strings and
missing entries are dropped, but a literal `null` cell coerces to `0` and
is retained, so the example column `["12", "abc", null, "15"]` yields the
surviving values `[12, 0, 15]` and its statistics are computed over
exactly that list. -/
theorem c1_amended (sqrtFn : ℚ → ℚ) :
    coerceNum (some .null) = some 0
    ∧ coerceNum (some (.str "abc")) = none
    ∧ coerceNum none = none
    ∧ colVals c1Rows "m" = [12, 0, 15]
    ∧ (computeGrowthMetrics sqrtFn c1Rows ["m"]).metrics_detail
        = [("m", columnDetail [12, 0, 15])] := by
  refine ⟨rfl, by with_unfolding_all decide, rfl, by with_unfolding_all decide, ?_⟩
  with_unfolding_all rfl

/-- C3: on degenerate input (empty row list or empty declared
numeric-column list) the engine returns the all-zero record with empty
`metrics_detail` and `trends` maps — a value, not an exception (the
embedding is a total function). -/
theorem degenerate_input_yields_zero (sqrtFn : ℚ → ℚ) (data : List Row)
    (cols : List String) (h : data = [] ∨ cols = []) :
    (computeGrowthMetrics sqrtFn data cols).growth_score = 0
    ∧ (computeGrowthMetrics sqrtFn data cols).efficiency_score = 0
    ∧ (computeGrowthMetrics sqrtFn data cols).pmf_signal = 0
    ∧ (computeGrowthMetrics sqrtFn data cols).scalability_index = 0
    ∧ (computeGrowthMetrics sqrtFn data cols).capital_efficiency = 0
    ∧ (computeGrowthMetrics sqrtFn data cols).metrics_detail = []
    ∧ (computeGrowthMetrics sqrtFn data cols).trends = [] := by
  rw [computeGrowthMetrics_degenerate sqrtFn data cols h]
  exact ⟨rfl, rfl, rfl, rfl, rfl, rfl, rfl⟩

/-- Witness for C3 at the concrete degenerate input `data = []`,
`cols = ["m"]`. -/
theorem degenerate_input_yields_zero_witness :
    (([] : List Row) = [] ∨ (["m"] : List String) = [])
    ∧ ((computeGrowthMetrics sqrt0 [] ["m"]).growth_score = 0
       ∧ (computeGrowthMetrics sqrt0 [] ["m"]).efficiency_score = 0
       ∧ (computeGrowthMetrics sqrt0 [] ["m"]).pmf_signal = 0
       ∧ (computeGrowthMetrics sqrt0 [] ["m"]).scalability_index = 0
       ∧ (computeGrowthMetrics sqrt0 [] ["m"]).capital_efficiency = 0
       ∧ (computeGrowthMetrics sqrt0 [] ["m"]).metrics_detail = []
       ∧ (computeGrowthMetrics sqrt0 [] ["m"]).trends = []) :=
  ⟨Or.inl rfl, degenerate_input_yields_zero sqrt0 [] ["m"] (Or.inl rfl)⟩

/-- Input rows of the C4 example: one column `m` with values 0 then 10. -/
def c4Rows : List Row := [[("m", .num 0)], [("m", .num 10)]]

/-- C4: a growth-rate entry `(v[i] - v[i-1]) / abs(v[i-1]) * 100` is
emitted exactly for the adjacent pairs whose prior value is nonzero; on
the column `[0, 10]` the zero prior is skipped, so `growth_rates = []`
and `avg_growth_rate = 0`, while the trend series still carries both raw
values `[0, 10]`. -/
theorem growth_rate_zero_prev_skip (l : List ℚ) (sqrtFn : ℚ → ℚ) :
    pctChanges l = (l.zip l.tail).filterMap
      (fun p => if p.1 ≠ 0 then some ((p.2 - p.1) / |p.1| * 100) else none)
    ∧ (computeGrowthMetrics sqrtFn c4Rows ["m"]).metrics_detail.lookup "m" =
        some { mean := 5, latest := 10, min := 0, max := 10, total := 10,
               avg_growth_rate := some 0, growth_rates := some [] }
    ∧ (computeGrowthMetrics sqrtFn c4Rows ["m"]).trends.lookup "m" = some [0, 10] := by
  refine ⟨pctChanges_eq l, ?_, ?_⟩
  · with_unfolding_all rfl
  · with_unfolding_all rfl

/-- C9: each classification bucket consists exactly of the declared
columns containing one of that bucket's keywords as a substring, in
declaration order (each bucket is a sublist of the declared list); the
buckets are not exclusive — `customer_churn_rate` lands in both the
`user` bucket (via `customer`) and the `retention` bucket (via `churn`). -/
theorem classifier_partition (cols : List String) (c : String) :
    (∀ kws : List String, matchesAny kws c = true ↔ ∃ kw ∈ kws, kw.toList <:+: c.toList)
    ∧ (c ∈ (classifyColumns cols).revenue ↔ c ∈ cols ∧ matchesAny revenueKws c = true)
    ∧ (c ∈ (classifyColumns cols).cost ↔ c ∈ cols ∧ matchesAny costKws c = true)
    ∧ (c ∈ (classifyColumns cols).user ↔ c ∈ cols ∧ matchesAny userKws c = true)
    ∧ (c ∈ (classifyColumns cols).retention ↔ c ∈ cols ∧ matchesAny retentionKws c = true)
    ∧ (classifyColumns cols).revenue.Sublist cols
    ∧ (classifyColumns cols).cost.Sublist cols
    ∧ (classifyColumns cols).user.Sublist cols
    ∧ (classifyColumns cols).retention.Sublist cols
    ∧ "customer_churn_rate" ∈ (classifyColumns ["customer_churn_rate"]).user
    ∧ "customer_churn_rate" ∈ (classifyColumns ["customer_churn_rate"]).retention := by
  refine ⟨fun kws => matchesAny_iff kws c, ?_, ?_, ?_, ?_, ?_, ?_, ?_, ?_, ?_, ?_⟩
  · exact List.mem_filter
  · exact List.mem_filter
  · exact List.mem_filter
  · exact List.mem_filter
  · exact List.filter_sublist cols
  · exact List.filter_sublist cols
  · exact List.filter_sublist cols
  · exact List.filter_sublist cols
  · decide
  · decide

/-- C2: for every input — any row sequence, any declared numeric-column
list, any interpretation of `Math.sqrt` — each of the five composite
scores returned by `computeGrowthMetrics` lies in the closed interval
`[0, 100]`. -/
theorem composite_scores_bounded (sqrtFn : ℚ → ℚ) (data : List Row)
    (cols : List String) :
    (0 ≤ (computeGrowthMetrics sqrtFn data cols).growth_score
      ∧ (computeGrowthMetrics sqrtFn data cols).growth_score ≤ 100)
    ∧ (0 ≤ (computeGrowthMetrics sqrtFn data cols).efficiency_score
      ∧ (computeGrowthMetrics sqrtFn data cols).efficiency_score ≤ 100)
    ∧ (0 ≤ (computeGrowthMetrics sqrtFn data cols).pmf_signal
      ∧ (computeGrowthMetrics sqrtFn data cols).pmf_signal ≤ 100)
    ∧ (0 ≤ (computeGrowthMetrics sqrtFn data cols).scalability_index
      ∧ (computeGrowthMetrics sqrtFn data cols).scalability_index ≤ 100)
    ∧ (0 ≤ (computeGrowthMetrics sqrtFn data cols).capital_efficiency
      ∧ (computeGrowthMetrics sqrtFn data cols).capital_efficiency ≤ 100) := by
  by_cases h : data = [] ∨ cols = []
  · rw [computeGrowthMetrics_degenerate sqrtFn data cols h]
    norm_num [zeroResult]
  · push_neg at h
    rw [computeGrowthMetrics_pos sqrtFn data cols h.1 h.2]
    exact ⟨⟨round2_nonneg (growthScoreOf_mem _ _ _).1,
            round2_le_hundred (growthScoreOf_mem _ _ _).2⟩,
           ⟨round2_nonneg (efficiencyScoreOf_mem _ _).1,
            round2_le_hundred (efficiencyScoreOf_mem _ _).2⟩,
           ⟨round2_nonneg (pmfSignalOf_mem _ _ _ _ _ _).1,
            round2_le_hundred (pmfSignalOf_mem _ _ _ _ _ _).2⟩,
           ⟨round2_nonneg (scalabilityIndexOf_mem _ _).1,
            round2_le_hundred (scalabilityIndexOf_mem _ _).2⟩,
           ⟨round2_nonneg (capitalEfficiencyOf_mem _ _).1,
            round2_le_hundred (capitalEfficiencyOf_mem _ _).2⟩⟩

/-! ### Folded minimum, maximum, last element and mean of a list -/

theorem foldl_min_le_init (t : List ℚ) : ∀ a : ℚ, t.foldl min a ≤ a := by
  induction t with
  | nil => intro a; simp
  | cons b t ih =>
      intro a
      rw [List.foldl_cons]
      exact le_trans (ih (min a b)) (min_le_left a b)

theorem foldl_min_le_of_mem (t : List ℚ) : ∀ a y : ℚ, y ∈ t → t.foldl min a ≤ y := by
  induction t with
  | nil => intro a y hy; cases hy
  | cons b t ih =>
      intro a y hy
      rw [List.foldl_cons]
      rcases List.mem_cons.mp hy with rfl | hmem
      · exact le_trans (foldl_min_le_init t (min a y)) (min_le_right a y)
      · exact ih (min a b) y hmem

theorem listMin_le_of_mem {l : List ℚ} {y : ℚ} (hy : y ∈ l) : listMin l ≤ y := by
  cases l with
  | nil => cases hy
  | cons x xs =>
      rw [listMin]
      rcases List.mem_cons.mp hy with rfl | hmem
      · exact foldl_min_le_init xs y
      · exact foldl_min_le_of_mem xs x y hmem

theorem init_le_foldl_max (t : List ℚ) : ∀ a : ℚ, a ≤ t.foldl max a := by
  induction t with
  | nil => intro a; simp
  | cons b t ih =>
      intro a
      rw [List.foldl_cons]
      exact le_trans (le_max_left a b) (ih (max a b))

theorem mem_le_foldl_max (t : List ℚ) : ∀ a y : ℚ, y ∈ t → y ≤ t.foldl max a := by
  induction t with
  | nil => intro a y hy; cases hy
  | cons b t ih =>
      intro a y hy
      rw [List.foldl_cons]
      rcases List.mem_cons.mp hy with rfl | hmem
      · exact le_trans (le_max_right a y) (init_le_foldl_max t (max a y))
      · exact ih (max a b) y hmem

theorem le_listMax_of_mem {l : List ℚ} {y : ℚ} (hy : y ∈ l) : y ≤ listMax l := by
  cases l with
  | nil => cases hy
  | cons x xs =>
      rw [listMax]
      rcases List.mem_cons.mp hy with rfl | hmem
      · exact init_le_foldl_max xs y
      · exact mem_le_foldl_max xs x y hmem

theorem getLastD_mem : ∀ l : List ℚ, l ≠ [] → l.getLastD 0 ∈ l
  | [], h => absurd rfl h
  | [x], _ => by simp
  | x :: y :: t, _ => by
      have ht := getLastD_mem (y :: t) (by simp)
      rw [List.getLastD_cons]
      exact List.mem_cons_of_mem x ht

theorem mean_le_listMax {l : List ℚ} (h : l ≠ []) : mean l ≤ listMax l := by
  have hlen : 0 < l.length := List.length_pos.mpr h
  have hlenq : (0 : ℚ) < l.length := by exact_mod_cast hlen
  rw [mean, if_neg (by simpa [List.isEmpty_iff] using h)]
  rw [div_le_iff₀ hlenq]
  have hs := List.sum_le_card_nsmul l (listMax l) (fun x hx => le_listMax_of_mem hx)
  rw [nsmul_eq_mul] at hs
  linarith

theorem listMin_le_mean {l : List ℚ} (h : l ≠ []) : listMin l ≤ mean l := by
  have hlen : 0 < l.length := List.length_pos.mpr h
  have hlenq : (0 : ℚ) < l.length := by exact_mod_cast hlen
  rw [mean, if_neg (by simpa [List.isEmpty_iff] using h)]
  rw [le_div_iff₀ hlenq]
  have hs := List.card_nsmul_le_sum l (listMin l) (fun x hx => listMin_le_of_mem hx)
  rw [nsmul_eq_mul] at hs
  linarith

/-! ### Shape of `columnDetail` and lookups into the two result maps -/

theorem columnDetail_base (vals : List ℚ) :
    (columnDetail vals).mean = round2 (mean vals)
    ∧ (columnDetail vals).latest = round2 (vals.getLastD 0)
    ∧ (columnDetail vals).min = round2 (listMin vals)
    ∧ (columnDetail vals).max = round2 (listMax vals)
    ∧ (columnDetail vals).total = round2 vals.sum := by
  unfold columnDetail
  dsimp only
  split
  · exact ⟨rfl, rfl, rfl, rfl, rfl⟩
  · exact ⟨rfl, rfl, rfl, rfl, rfl⟩

theorem columnDetail_growth (vals : List ℚ) (h : 1 < vals.length) :
    (columnDetail vals).avg_growth_rate
      = some (if (pctChanges vals).isEmpty then 0 else round2 (mean (pctChanges vals)))
    ∧ (columnDetail vals).growth_rates = some ((pctChanges vals).map round2) := by
  unfold columnDetail
  dsimp only
  rw [if_pos h]
  exact ⟨rfl, rfl⟩

theorem columnDetail_nogrowth (vals : List ℚ) (h : ¬ 1 < vals.length) :
    (columnDetail vals).avg_growth_rate = none
    ∧ (columnDetail vals).growth_rates = none := by
  unfold columnDetail
  dsimp only
  rw [if_neg h]
  exact ⟨rfl, rfl⟩

theorem lookup_metricsDetail (data : List Row) (cols : List String) (col : String)
    (cm : ColumnMetrics) (h : (metricsDetail data cols).lookup col = some cm) :
    colVals data col ≠ [] ∧ cm = columnDetail (colVals data col) := by
  induction cols with
  | nil => simp [metricsDetail] at h
  | cons c cs ih =>
      rw [metricsDetail, List.filterMap_cons] at h
      by_cases hv : (colVals data c).isEmpty
      · rw [if_pos hv] at h
        exact ih h
      · rw [if_neg hv] at h
        by_cases hc : col = c
        · subst hc
          simp only [List.lookup_cons, beq_self_eq_true] at h
          refine ⟨by simpa [List.isEmpty_iff] using hv, ?_⟩
          exact (Option.some_inj.mp h).symm
        · simp only [List.lookup_cons, beq_eq_false_iff_ne.mpr hc] at h
          exact ih h

theorem lookup_metricsDetail_of_mem (data : List Row) (cols : List String)
    (col : String) (hmem : col ∈ cols) (hne : colVals data col ≠ []) :
    (metricsDetail data cols).lookup col = some (columnDetail (colVals data col)) := by
  induction cols with
  | nil => cases hmem
  | cons c cs ih =>
      rw [metricsDetail, List.filterMap_cons]
      by_cases hceq : c = col
      · subst hceq
        rw [if_neg (by simpa [List.isEmpty_iff] using hne)]
        simp only [List.lookup_cons, beq_self_eq_true]
      · have hmem' : col ∈ cs := by
          rcases List.mem_cons.mp hmem with h | h
          · exact absurd h.symm hceq
          · exact h
        by_cases hv : (colVals data c).isEmpty
        · rw [if_pos hv]
          exact ih hmem'
        · rw [if_neg hv]
          have hne2 : (col == c) = false := beq_eq_false_iff_ne.mpr (fun h => hceq h.symm)
          simp only [List.lookup_cons, hne2]
          exact ih hmem'

theorem lookup_trendsOf_none (data : List Row) (cols : List String) (col : String)
    (hlen : ¬ 1 < (colVals data col).length) :
    (trendsOf data cols).lookup col = none := by
  induction cols with
  | nil => simp [trendsOf]
  | cons c cs ih =>
      rw [trendsOf, List.filterMap_cons]
      by_cases hc : 1 < (colVals data c).length
      · have hne : (col == c) = false := by
          apply beq_eq_false_iff_ne.mpr
          rintro rfl
          exact hlen hc
        rw [if_pos hc]
        simp only [List.lookup_cons, hne]
        exact ih
      · rw [if_neg hc]
        exact ih

theorem round2_fiftyfive : round2 55 = 55 := by norm_num [round2]

theorem round2_sixtyfive : round2 65 = 65 := by norm_num [round2]

theorem lookup_result_metricsDetail (sqrtFn : ℚ → ℚ) (data : List Row)
    (cols : List String) (col : String) (cm : ColumnMetrics)
    (h : (computeGrowthMetrics sqrtFn data cols).metrics_detail.lookup col = some cm) :
    (metricsDetail data cols).lookup col = some cm := by
  by_cases hdeg : data = [] ∨ cols = []
  · rw [computeGrowthMetrics_degenerate sqrtFn data cols hdeg] at h
    simp [zeroResult] at h
  · push_neg at hdeg
    rw [computeGrowthMetrics_pos sqrtFn data cols hdeg.1 hdeg.2] at h
    exact h

theorem columnDetail_single (v : ℚ) :
    columnDetail [v] = { mean := round2 v, latest := round2 v, min := round2 v,
                         max := round2 v, total := round2 v,
                         avg_growth_rate := none, growth_rates := none } := by
  unfold columnDetail
  dsimp only
  rw [if_neg (by simp)]
  simp [mean, listMin, listMax]

/-- Input rows of the C5 counterexample: one column `m` with values
`800`, `801`, `801.801`, whose two raw growth rates are `0.125` and
`0.1`. -/
def c5Rows : List Row :=
  [[("m", .num 800)], [("m", .num 801)], [("m", .num (801801 / 1000))]]

/-- C5 counterexample: on the column `[800, 801, 801.801]` the returned
`avg_growth_rate` is `round2(0.1125) = 0.11` (the rounded mean of the
unrounded rates `[0.125, 0.1]`) while the returned `growth_rates` list is
`[0.13, 0.1]`, whose arithmetic mean is `0.115 ≠ 0.11` — so
`avg_growth_rate` does not equal the mean of the returned `growth_rates`
sequence. -/
theorem avg_growth_rate_counterexample :
    ((computeGrowthMetrics sqrt0 c5Rows ["m"]).metrics_detail.lookup "m").map
        (fun d => d.avg_growth_rate) = some (some (11 / 100))
    ∧ ((computeGrowthMetrics sqrt0 c5Rows ["m"]).metrics_detail.lookup "m").map
        (fun d => d.growth_rates) = some (some [13 / 100, 1 / 10])
    ∧ mean [13 / 100, 1 / 10] ≠ (11 / 100 : ℚ) :=
  ⟨by with_unfolding_all decide, by with_unfolding_all decide,
   by with_unfolding_all decide⟩

/-- C5 (amended): for a column with at least two surviving values, the
returned `avg_growth_rate` is `round2` of the arithmetic mean of the
unrounded growth-rate series (`0` when that series is empty), and the
returned `growth_rates` list is the elementwise-rounded series — so the
returned average is in general not the mean of the returned list. -/
theorem avg_growth_rate_amended (sqrtFn : ℚ → ℚ) (data : List Row)
    (cols : List String) (col : String) (cm : ColumnMetrics)
    (h : (computeGrowthMetrics sqrtFn data cols).metrics_detail.lookup col = some cm)
    (hlen : 1 < (colVals data col).length) :
    cm.avg_growth_rate = some (if (pctChanges (colVals data col)).isEmpty then 0
        else round2 (mean (pctChanges (colVals data col))))
    ∧ cm.growth_rates = some ((pctChanges (colVals data col)).map round2) := by
  obtain ⟨hne, hcm⟩ :=
    lookup_metricsDetail data cols col cm (lookup_result_metricsDetail sqrtFn data cols col cm h)
  subst hcm
  exact columnDetail_growth (colVals data col) hlen

/-- Witness for C5 (amended) at the C5 input column. -/
theorem avg_growth_rate_amended_witness :
    (computeGrowthMetrics sqrt0 c5Rows ["m"]).metrics_detail.lookup "m"
        = some (columnDetail (colVals c5Rows "m"))
    ∧ 1 < (colVals c5Rows "m").length
    ∧ ((columnDetail (colVals c5Rows "m")).avg_growth_rate
          = some (if (pctChanges (colVals c5Rows "m")).isEmpty then 0
              else round2 (mean (pctChanges (colVals c5Rows "m"))))
      ∧ (columnDetail (colVals c5Rows "m")).growth_rates
          = some ((pctChanges (colVals c5Rows "m")).map round2)) :=
  ⟨by with_unfolding_all rfl, by with_unfolding_all decide,
   avg_growth_rate_amended sqrt0 c5Rows ["m"] "m" (columnDetail (colVals c5Rows "m"))
     (by with_unfolding_all rfl) (by with_unfolding_all decide)⟩

/-- C6: a declared column with exactly one surviving value `v` appears in
`metrics_detail` with all five statistics equal to `round2 v` and without
the optional growth fields, and is absent from `trends`. -/
theorem single_value_column (sqrtFn : ℚ → ℚ) (data : List Row) (cols : List String)
    (col : String) (v : ℚ) (hmem : col ∈ cols) (hv : colVals data col = [v]) :
    (computeGrowthMetrics sqrtFn data cols).metrics_detail.lookup col =
      some { mean := round2 v, latest := round2 v, min := round2 v, max := round2 v,
             total := round2 v, avg_growth_rate := none, growth_rates := none }
    ∧ (computeGrowthMetrics sqrtFn data cols).trends.lookup col = none := by
  have hd : data ≠ [] := by
    rintro rfl
    simp [colVals] at hv
  have hc : cols ≠ [] := by rintro rfl; cases hmem
  rw [computeGrowthMetrics_pos sqrtFn data cols hd hc]
  constructor
  · show (metricsDetail data cols).lookup col = _
    rw [lookup_metricsDetail_of_mem data cols col hmem (by rw [hv]; simp), hv,
      columnDetail_single]
  · show (trendsOf data cols).lookup col = none
    exact lookup_trendsOf_none data cols col (by rw [hv]; simp)

/-- Input row of the C6 witness: one column `m` with single value 7. -/
def c6Rows : List Row := [[("m", .num 7)]]

/-- Witness for C6 at a concrete single-value column. -/
theorem single_value_column_witness :
    "m" ∈ (["m"] : List String) ∧ colVals c6Rows "m" = [7]
    ∧ ((computeGrowthMetrics sqrt0 c6Rows ["m"]).metrics_detail.lookup "m" =
        some { mean := round2 7, latest := round2 7, min := round2 7, max := round2 7,
               total := round2 7, avg_growth_rate := none, growth_rates := none }
      ∧ (computeGrowthMetrics sqrt0 c6Rows ["m"]).trends.lookup "m" = none) :=
  ⟨by decide, by with_unfolding_all decide,
   single_value_column sqrt0 c6Rows ["m"] "m" 7 (by decide) (by with_unfolding_all decide)⟩

/-- C10: every `ColumnMetrics` entry of the returned `metrics_detail`
satisfies `min ≤ mean ≤ max`, `min ≤ latest ≤ max` and `min ≤ max` (the
rounded statistics preserve the ordering of the raw ones). -/
theorem metrics_detail_ordered (sqrtFn : ℚ → ℚ) (data : List Row)
    (cols : List String) (col : String) (cm : ColumnMetrics)
    (h : (computeGrowthMetrics sqrtFn data cols).metrics_detail.lookup col = some cm) :
    cm.min ≤ cm.mean ∧ cm.mean ≤ cm.max ∧ cm.min ≤ cm.latest ∧ cm.latest ≤ cm.max
    ∧ cm.min ≤ cm.max := by
  obtain ⟨hne, hcm⟩ :=
    lookup_metricsDetail data cols col cm (lookup_result_metricsDetail sqrtFn data cols col cm h)
  subst hcm
  obtain ⟨hm, hl, hmin, hmax, -⟩ := columnDetail_base (colVals data col)
  rw [hm, hl, hmin, hmax]
  have h1 := listMin_le_mean hne
  have h2 := mean_le_listMax hne
  have h3 := listMin_le_of_mem (getLastD_mem _ hne)
  have h4 := le_listMax_of_mem (getLastD_mem _ hne)
  exact ⟨round2_mono h1, round2_mono h2, round2_mono h3, round2_mono h4,
         round2_mono (le_trans h1 h2)⟩

/-- Input rows of the C10 witness: one column `m` with values 7 and 9. -/
def c10Rows : List Row := [[("m", .num 7)], [("m", .num 9)]]

/-- Witness for C10 at a concrete two-value column. -/
theorem metrics_detail_ordered_witness :
    (computeGrowthMetrics sqrt0 c10Rows ["m"]).metrics_detail.lookup "m"
        = some (columnDetail [7, 9])
    ∧ ((columnDetail [7, 9]).min ≤ (columnDetail [7, 9]).mean
      ∧ (columnDetail [7, 9]).mean ≤ (columnDetail [7, 9]).max
      ∧ (columnDetail [7, 9]).min ≤ (columnDetail [7, 9]).latest
      ∧ (columnDetail [7, 9]).latest ≤ (columnDetail [7, 9]).max
      ∧ (columnDetail [7, 9]).min ≤ (columnDetail [7, 9]).max) :=
  ⟨by with_unfolding_all rfl,
   metrics_detail_ordered sqrt0 c10Rows ["m"] "m" (columnDetail [7, 9])
     (by with_unfolding_all rfl)⟩

/-- Input row of the C7 counterexample: revenue total 1, cost total 3. -/
def c7Rows : List Row := [[("revenue", .num 1), ("cost", .num 3)]]

/-- Input rows of the C7 example: `revenue = [100, 200]`, `cost = [50, 50]`. -/
def c7ExRows : List Row :=
  [[("revenue", .num 100), ("cost", .num 50)], [("revenue", .num 200), ("cost", .num 50)]]

/-- C7 counterexample: with bucket totals `sumRevenue = 1`, `sumCost = 3`
the returned `efficiency_score` is `round2(clamp(25/3)) = 8.33`, which is
not `clamp((1/3)*25) = 25/3` — the claim omits the final 2-decimal
rounding of the returned score. -/
theorem efficiency_score_counterexample :
    (computeGrowthMetrics sqrt0 c7Rows ["revenue", "cost"]).efficiency_score = 833 / 100
    ∧ bucketTotal (metricsDetail c7Rows ["revenue", "cost"])
        (classifyColumns ["revenue", "cost"]).revenue = 1
    ∧ bucketTotal (metricsDetail c7Rows ["revenue", "cost"])
        (classifyColumns ["revenue", "cost"]).cost = 3
    ∧ (833 / 100 : ℚ) ≠ clamp ((1 : ℚ) / 3 * 25) 0 100 :=
  ⟨by with_unfolding_all decide, by with_unfolding_all decide,
   by with_unfolding_all decide, by with_unfolding_all decide⟩

/-- C7 (amended): on non-degenerate input, `efficiency_score` is 65
whenever the revenue or cost bucket is empty; otherwise, with
`sumRevenue`/`sumCost` the sums of the buckets' column totals, it is
`round2 (clamp ((sumRevenue / sumCost) * 25))` when `sumCost > 0` and
retains 65 when `sumCost ≤ 0`; the `revenue=[100,200]`, `cost=[50,50]`
example still yields exactly 75. -/
theorem efficiency_score_amended (sqrtFn : ℚ → ℚ) (data : List Row)
    (cols : List String) (hd : data ≠ []) (hc : cols ≠ []) :
    ((computeGrowthMetrics sqrtFn data cols).metrics_detail = metricsDetail data cols)
    ∧ ((classifyColumns cols).revenue = [] ∨ (classifyColumns cols).cost = [] →
        (computeGrowthMetrics sqrtFn data cols).efficiency_score = 65)
    ∧ ((classifyColumns cols).revenue ≠ [] ∧ (classifyColumns cols).cost ≠ [] →
        0 < bucketTotal (metricsDetail data cols) (classifyColumns cols).cost →
        (computeGrowthMetrics sqrtFn data cols).efficiency_score =
          round2 (clamp (bucketTotal (metricsDetail data cols) (classifyColumns cols).revenue
            / bucketTotal (metricsDetail data cols) (classifyColumns cols).cost * 25) 0 100))
    ∧ ((classifyColumns cols).revenue ≠ [] ∧ (classifyColumns cols).cost ≠ [] →
        bucketTotal (metricsDetail data cols) (classifyColumns cols).cost ≤ 0 →
        (computeGrowthMetrics sqrtFn data cols).efficiency_score = 65)
    ∧ (computeGrowthMetrics sqrtFn c7ExRows ["revenue", "cost"]).efficiency_score = 75 := by
  rw [computeGrowthMetrics_pos sqrtFn data cols hd hc]
  refine ⟨rfl, ?_, ?_, ?_, ?_⟩
  · intro h0
    show round2 (efficiencyScoreOf (metricsDetail data cols) (classifyColumns cols)) = 65
    unfold efficiencyScoreOf
    rw [if_neg (by tauto)]
    exact round2_sixtyfive
  · rintro ⟨h1, h2⟩ h3
    show round2 (efficiencyScoreOf (metricsDetail data cols) (classifyColumns cols)) = _
    unfold efficiencyScoreOf
    rw [if_pos ⟨h1, h2⟩, if_pos h3]
  · rintro ⟨h1, h2⟩ h3
    show round2 (efficiencyScoreOf (metricsDetail data cols) (classifyColumns cols)) = 65
    unfold efficiencyScoreOf
    rw [if_pos ⟨h1, h2⟩, if_neg (not_lt.mpr h3)]
    exact round2_sixtyfive
  · have hd2 : c7ExRows ≠ [] := by simp [c7ExRows]
    have hc2 : (["revenue", "cost"] : List String) ≠ [] := by simp
    rw [computeGrowthMetrics_pos sqrtFn c7ExRows ["revenue", "cost"] hd2 hc2]
    show round2 (efficiencyScoreOf (metricsDetail c7ExRows ["revenue", "cost"])
      (classifyColumns ["revenue", "cost"])) = 75
    with_unfolding_all decide

/-- Witness for C7 (amended): the 100/200 vs 50/50 example evaluates
to 75. -/
theorem efficiency_score_amended_witness :
    c7ExRows ≠ [] ∧ (["revenue", "cost"] : List String) ≠ []
    ∧ (computeGrowthMetrics sqrt0 c7ExRows ["revenue", "cost"]).efficiency_score = 75 :=
  ⟨by decide, by decide,
   (efficiency_score_amended sqrt0 c7ExRows ["revenue", "cost"]
      (by decide) (by decide)).2.2.2.2⟩

/-- Input row of the C8 counterexample: three pure retention columns with
latest values 1, 1 and 2, whose mean 4/3 is not representable in two
decimals. -/
def c8Rows : List Row :=
  [[("retention_a", .num 1), ("retention_b", .num 1), ("retention_c", .num 2)]]

/-- C8 counterexample: with pure retention latest values `[1, 1, 2]` the
returned `pmf_signal` is `round2(clamp(4/3)) = 1.33`, not the clamped
average `4/3` — the claim omits the final 2-decimal rounding of the
returned score. -/
theorem pmf_signal_counterexample :
    (computeGrowthMetrics sqrt0 c8Rows ["retention_a", "retention_b", "retention_c"]).pmf_signal
        = 133 / 100
    ∧ latestValsOf (metricsDetail c8Rows ["retention_a", "retention_b", "retention_c"])
        (pureRetentionOf (classifyColumns ["retention_a", "retention_b", "retention_c"]))
        = [1, 1, 2]
    ∧ (133 / 100 : ℚ) ≠ clamp (mean [1, 1, 2]) 0 100 :=
  ⟨by with_unfolding_all decide, by with_unfolding_all decide,
   by with_unfolding_all decide⟩

/-- C8 (amended): on non-degenerate input `pmf_signal` follows the
priority order — pure retention columns first (rounded clamped average of
their recorded latest values, 55 if none of them has an entry), else
churn columns (`round2 (clamp (100 - avgChurn * 10))`, 55 if none has an
entry), else collected growth rates
(`round2 (clamp ((consistency + growth_score) / 2))` with consistency
`100 - min 100 (stddev * 2)` for more than one rate and 60 otherwise),
else the default 55. -/
theorem pmf_signal_amended (sqrtFn : ℚ → ℚ) (data : List Row)
    (cols : List String) (hd : data ≠ []) (hc : cols ≠ []) :
    (computeGrowthMetrics sqrtFn data cols).pmf_signal =
      if pureRetentionOf (classifyColumns cols) ≠ [] then
        if latestValsOf (metricsDetail data cols) (pureRetentionOf (classifyColumns cols)) ≠ [] then
          round2 (clamp (mean (latestValsOf (metricsDetail data cols)
            (pureRetentionOf (classifyColumns cols)))) 0 100)
        else 55
      else if churnColsOf cols ≠ [] then
        if latestValsOf (metricsDetail data cols) (churnColsOf cols) ≠ [] then
          round2 (clamp (100 - mean (latestValsOf (metricsDetail data cols)
            (churnColsOf cols)) * 10) 0 100)
        else 55
      else if growthRatesOf (metricsDetail data cols) (growthColsOf (classifyColumns cols) cols) ≠ [] then
        round2 (clamp (((if (growthRatesOf (metricsDetail data cols)
                (growthColsOf (classifyColumns cols) cols)).length > 1 then
              100 - min 100 (std sqrtFn (growthRatesOf (metricsDetail data cols)
                (growthColsOf (classifyColumns cols) cols)) * 2)
            else 60)
          + growthScoreOf (metricsDetail data cols) (classifyColumns cols) cols) / 2) 0 100)
      else 55 := by
  rw [computeGrowthMetrics_pos sqrtFn data cols hd hc]
  show round2 (pmfSignalOf sqrtFn (metricsDetail data cols) (classifyColumns cols) cols
    (growthRatesOf (metricsDetail data cols) (growthColsOf (classifyColumns cols) cols))
    (growthScoreOf (metricsDetail data cols) (classifyColumns cols) cols)) = _
  unfold pmfSignalOf
  split
  · split
    · rfl
    · exact round2_fiftyfive
  · split
    · split
      · rfl
      · exact round2_fiftyfive
    · split
      · rfl
      · exact round2_fiftyfive

/-- Witness for C8 (amended): at the pure-retention input the formula
evaluates to 1.33. -/
theorem pmf_signal_amended_witness :
    c8Rows ≠ [] ∧ (["retention_a", "retention_b", "retention_c"] : List String) ≠ []
    ∧ (computeGrowthMetrics sqrt0 c8Rows
        ["retention_a", "retention_b", "retention_c"]).pmf_signal = 133 / 100 :=
  ⟨by decide, by decide, by
    rw [pmf_signal_amended sqrt0 c8Rows ["retention_a", "retention_b", "retention_c"]
      (by decide) (by decide)]
    with_unfolding_all decide⟩

end ATI
